import Mathlib

/-!
Shallow embedding of the validation/compilation core of the polar authorization
engine (files `kb.rs`, `sugar.rs`).  Terms carry an optional source span in the
source that is used only for diagnostics and never for equality; the embedding
drops spans and models a `Term` by its `Value`.  Rust's `BTreeMap<Symbol, Term>`
dictionaries are modelled as key-unique association lists, `HashMap`s as
association lists, and Rust panics (`unreachable!`, `.expect`) as a
distinguished `Panic` error constructor.
-/

/-- The operator of an `Operation` expression.  The source's `Operator` enum has
many constructors; only `And` (the conjunction node produced by the implication
rewriter) is reachable from the code under verification. -/
inductive Operator where
  | And
  deriving DecidableEq, Repr

mutual
/-- The `Value` variants of a polar `Term` (`terms.rs` data model, as consumed by
`kb.rs`/`sugar.rs`).  `Value::Pattern(Pattern::Instance(InstanceLiteral{tag,fields}))`
is flattened to `InstancePat`, `Value::Pattern(Pattern::Dictionary(d))` to
`DictPat`.  Floats are opaque for the code under verification (only compared for
equality), so `FloatBits` carries an opaque representation.
`ExternalInstance` keeps only its `instance_id`. -/
inductive Term where
  | Variable : String → Term
  | Integer : Int → Term
  | FloatBits : Nat → Term
  | Str : String → Term
  | Boolean : Bool → Term
  | Lst : TermList → Term
  | Dict : Fields → Term
  | InstancePat : String → Fields → Term
  | DictPat : Fields → Term
  | ExternalInstance : Nat → Term
  | Call : String → TermList → Term
  | Expr : Operator → TermList → Term
  deriving DecidableEq, Repr

/-- A `Vec<Term>` / `List<Term>`. -/
inductive TermList where
  | nil : TermList
  | cons : Term → TermList → TermList
  deriving DecidableEq, Repr

/-- The fields of a `Dictionary` (`BTreeMap<Symbol, Term>`): a key-unique
association list. -/
inductive Fields where
  | nil : Fields
  | cons : String → Term → Fields → Fields
  deriving DecidableEq, Repr
end

/-- Embeds `BTreeMap::get` on dictionary fields. -/
def Fields.lookup : Fields → String → Option Term
  | .nil, _ => none
  | .cons k v rest, key => if k = key then some v else rest.lookup key

/-- The entries of a field map, as a Lean list (for stating properties). -/
def Fields.entries : Fields → List (String × Term)
  | .nil => []
  | .cons k v rest => (k, v) :: rest.entries

def TermList.contains : TermList → Term → Bool
  | .nil, _ => false
  | .cons t rest, x => t = x || rest.contains x

def TermList.all : TermList → (Term → Bool) → Bool
  | .nil, _ => true
  | .cons t rest, p => p t && rest.all p

def TermList.ofList : List Term → TermList
  | [] => .nil
  | t :: rest => .cons t (TermList.ofList rest)

/-- A `Pattern` (the argument type of `check_pattern_param`):
`Instance(InstanceLiteral { tag, fields })` or `Dictionary(fields)`. -/
inductive Pattern where
  | Instance : String → Fields → Pattern
  | Dictionary : Fields → Pattern
  deriving DecidableEq, Repr

/-- View a `Term` as a `Value::Pattern` payload. -/
def Term.asPattern : Term → Option Pattern
  | .InstancePat tag fields => some (.Instance tag fields)
  | .DictPat fields => some (.Dictionary fields)
  | _ => none

/-- Diagnostic rendering (`to_polar` in the source).  Scalars are rendered as in
the source; the rendering of compound values is abbreviated, because no verified
property inspects a diagnostic that contains a compound value (source-location
context is likewise dropped). -/
def Term.to_polar : Term → String
  | .Variable s => s
  | .Integer n => toString n
  | .FloatBits b => "Float#" ++ toString b
  | .Str s => "\"" ++ s ++ "\""
  | .Boolean b => cond b "true" "false"
  | .ExternalInstance i => "ExternalInstance#" ++ toString i
  | .Lst _ => "[...]"
  | .Dict _ => "\x7b...\x7d"
  | .InstancePat tag _ => tag ++ "\x7b...\x7d"
  | .DictPat _ => "\x7b...\x7d"
  | .Call name _ => name ++ "(...)"
  | .Expr _ _ => "(...)"

def Pattern.to_polar : Pattern → String
  | .Instance tag _ => tag ++ "\x7b...\x7d"
  | .Dictionary _ => "\x7b...\x7d"

/-- A rule parameter: the parameter term plus an optional specializer term. -/
structure Parameter where
  parameter : Term
  specializer : Option Term
  deriving DecidableEq, Repr

def Parameter.to_polar (p : Parameter) : String :=
  match p.specializer with
  | some s => p.parameter.to_polar ++ ": " ++ s.to_polar
  | none => p.parameter.to_polar

/-- A rule: name, ordered parameters, body.  Provenance (source id + span) is
used only by source removal and diagnostics and is dropped here. -/
structure Rule where
  name : String
  params : List Parameter
  body : Term
  deriving DecidableEq, Repr

def Rule.to_polar (r : Rule) : String :=
  r.name ++ "(" ++ String.intercalate ", " (r.params.map Parameter.to_polar) ++ ");"

/-- The error kinds reachable from the code under verification.  `Panic` models
a Rust abort (`unreachable!` / `.expect` / indexing panic), which in the source
is not a returned `PolarError` at all. -/
inductive PolarError where
  | ParseSugar : String → PolarError
  | OperationalInvalidState : String → PolarError
  | ValidationInvalidRule : String → String → PolarError
  | RuntimeFileLoading : String → PolarError
  | RuntimeTypeError : String → PolarError
  | ParameterError : String → PolarError
  | Panic : String → PolarError
  deriving DecidableEq, Repr

abbrev PolarResult (α : Type) := Except PolarError α

instance {ε α : Type} [DecidableEq ε] [DecidableEq α] : DecidableEq (Except ε α) := fun a b =>
  match a, b with
  | .ok a, .ok b => decidable_of_iff (a = b) (by simp)
  | .error e, .error f => decidable_of_iff (e = f) (by simp)
  | .ok _, .error _ => isFalse (by simp)
  | .error _, .ok _ => isFalse (by simp)

/-- Embeds `RuleParamMatch` from `kb.rs`. -/
inductive RuleParamMatch where
  | True : RuleParamMatch
  | False : String → RuleParamMatch
  deriving DecidableEq, Repr

def RuleParamMatch.isTrue : RuleParamMatch → Bool
  | .True => true
  | .False _ => false

/-- Embeds `HashMap::get` on an association list. -/
def assoc_lookup {α β : Type} [DecidableEq α] : List (α × β) → α → Option β
  | [], _ => none
  | (k1, v1) :: rest, k => if k1 = k then some v1 else assoc_lookup rest k

/-- Embeds `HashMap::insert` on a key-unique association list: replace the existing
binding or append a new one. -/
def assoc_insert {α β : Type} [DecidableEq α] : List (α × β) → α → β → List (α × β)
  | [], k, v => [(k, v)]
  | (k1, v1) :: rest, k, v =>
      if k1 = k then (k, v) :: rest else (k1, v1) :: assoc_insert rest k v

/-- Embeds `Declaration` from `sugar.rs`: a name declared as a role, permission, or
relation (carrying the relation's declared type term). -/
inductive Declaration where
  | Role : Declaration
  | Permission : Declaration
  | Relation : Term → Declaration
  deriving DecidableEq, Repr

abbrev Declarations := List (Term × Declaration)

/-- Embeds `Implication` from `sugar.rs`: head string term, plus implier string term and
optional relation string term. -/
structure Implication where
  head : Term
  body : Term × Option Term
  deriving DecidableEq, Repr

/-- Embeds `ResourceBlocks` from `sugar.rs` (named `Namespaces` in `kb.rs`'s snapshot of
the field): per-resource declarations and implications plus actor/resource sets. -/
structure ResourceBlocks where
  declarations : List (Term × Declarations)
  implications : List (Term × List Implication)
  actors : List Term
  resources : List Term
  deriving DecidableEq, Repr

def ResourceBlocks.clear (_ : ResourceBlocks) : ResourceBlocks :=
  ⟨[], [], [], []⟩

/-- A loaded source: optional filename plus source text. -/
structure Source where
  filename : Option String
  src : String
  deriving DecidableEq, Repr

/-- Modelled from the spec: the monotonically increasing id counter.  The
source's `Counter` lives in `counter.rs`, outside the provided slice; per the
spec it is monotonically increasing and wraps at 52 bits of precision so that
ids survive a lossless round-trip through an IEEE-754 double. -/
def MAX_ID : Nat := 2 ^ 52

structure Counter where
  next_id : Nat
  deriving DecidableEq, Repr

def Counter.next (c : Counter) : Nat × Counter :=
  let id := c.next_id % MAX_ID
  (id, ⟨(id + 1) % MAX_ID⟩)

/-- The `KnowledgeBase` state from `kb.rs` (gensym counter and fields unused by
the verified operations are dropped). -/
structure KnowledgeBase where
  constants : List (String × Term)
  mro : List (String × List Nat)
  loaded_files : List (String × Nat)
  loaded_content : List (String × String)
  rules : List (String × List Rule)
  rule_prototypes : List (String × List Rule)
  sources : List (Nat × Source)
  id_counter : Counter
  inline_queries : List Term
  resource_blocks : ResourceBlocks
  deriving DecidableEq, Repr

def KnowledgeBase.empty : KnowledgeBase :=
  ⟨[], [], [], [], [], [], [], ⟨0⟩, [], ⟨[], [], [], []⟩⟩

/-- Embeds `KnowledgeBase::new_id`: return the next monotonically increasing id and the
updated counter state. -/
def KnowledgeBase.new_id (kb : KnowledgeBase) : Nat × KnowledgeBase :=
  let (id, c) := kb.id_counter.next
  (id, { kb with id_counter := c })

/-- Embeds `param_fields_match`: rule fields match iff they are a superset of prototype
fields and all overlapping field values are equal. -/
def field_value_matches (rule_fields : Fields) (k : String) (prototype_value : Term) : Bool :=
  match rule_fields.lookup k with
  | some rule_value => rule_value = prototype_value
  | none => false

def param_fields_match : Fields → Fields → Bool
  | .nil, _ => true
  | .cons k pv rest, rule_fields =>
      field_value_matches rule_fields k pv && param_fields_match rest rule_fields

/-- Embeds `check_pattern_param`: match a rule pattern specializer against a prototype
pattern specializer. -/
def check_pattern_param (kb : KnowledgeBase) (index : Nat)
    (rule_pattern prototype_pattern : Pattern) : PolarResult RuleParamMatch :=
  match prototype_pattern, rule_pattern with
  | .Instance ptag pfields, .Instance rtag rfields =>
      if ptag = rtag then
        if param_fields_match pfields rfields then
          .ok .True
        else
          .ok (.False ("Rule specializer " ++ Pattern.to_polar (.Instance rtag rfields)
            ++ " on parameter " ++ toString index ++ " did not match prototype specializer "
            ++ Pattern.to_polar (.Instance ptag pfields)
            ++ " because the specializer fields did not match."))
      else
        match assoc_lookup kb.constants ptag with
        | some (.ExternalInstance instance_id) =>
            match assoc_lookup kb.mro rtag with
            | some rule_mro =>
                if !rule_mro.contains instance_id then
                  .ok (.False ("Rule specializer " ++ rtag ++ " on parameter " ++ toString index
                    ++ " must be a subclass of prototype specializer " ++ ptag))
                else if !param_fields_match pfields rfields then
                  .ok (.False ("Rule specializer " ++ Pattern.to_polar (.Instance rtag rfields)
                    ++ " on parameter " ++ toString index
                    ++ " did not match prototype specializer "
                    ++ Pattern.to_polar (.Instance ptag pfields)
                    ++ " because the specializer fields did not match."))
                else
                  .ok .True
            | none =>
                .error (.OperationalInvalidState
                  ("All registered classes must have a registered MRO. Class " ++ rtag
                    ++ " does not have a registered MRO."))
        | _ =>
            .error (.Panic "Unregistered specializer classes should be caught before this point.")
  | .Dictionary pfields, .Dictionary rfields =>
      if param_fields_match pfields rfields then
        .ok .True
      else
        .ok (.False ("Specializer mismatch on parameter " ++ toString index
          ++ ". Rule specializer fields " ++ reprStr rfields
          ++ " do not match prototype specializer fields " ++ reprStr pfields ++ "."))
  | .Dictionary pfields, .Instance _ rfields =>
      if param_fields_match pfields rfields then
        .ok .True
      else
        .ok (.False ("Specializer mismatch on parameter " ++ toString index
          ++ ". Rule specializer fields " ++ reprStr rfields
          ++ " do not match prototype specializer fields " ++ reprStr pfields ++ "."))
  | .Instance tag pfields, .Dictionary rfields =>
      if tag = "Dictionary" then
        if param_fields_match pfields rfields then
          .ok .True
        else
          .ok (.False ("Specializer mismatch on parameter " ++ toString index
            ++ ". Rule specializer fields " ++ reprStr rfields
            ++ " do not match prototype specializer fields " ++ reprStr pfields ++ "."))
      else
        .ok (.False ("Mismatch on parameter " ++ toString index ++ ". Rule parameter "
          ++ reprStr rule_pattern ++ " does not match prototype parameter "
          ++ reprStr prototype_pattern ++ "."))

/-- Embeds `check_value_param`: match a rule value against a prototype value. -/
def check_value_param (index : Nat) (rule_value prototype_value : Term) :
    PolarResult RuleParamMatch :=
  match prototype_value, rule_value with
  | .Lst prototype_list, .Lst rule_list =>
      if prototype_list.all (fun t => rule_list.contains t) then
        .ok .True
      else
        .ok (.False ("Invalid parameter " ++ toString index ++ ". Rule prototype expected list "
          ++ reprStr prototype_list ++ ", got list " ++ reprStr rule_list ++ "."))
  | .Dict pfields, .Dict rfields =>
      if param_fields_match pfields rfields then
        .ok .True
      else
        .ok (.False ("Invalid parameter " ++ toString index
          ++ ". Rule prototype expected Dictionary with fields " ++ reprStr pfields
          ++ ", got Dictionary with fields " ++ reprStr rfields))
  | pv, rv =>
      if pv = rv then
        .ok .True
      else
        .ok (.False ("Invalid parameter " ++ toString index ++ ". Rule value " ++ rv.to_polar
          ++ " != prototype value " ++ pv.to_polar))

/-- The inner match of `check_param`'s third arm: classify a rule literal value
against a prototype pattern specializer. -/
def check_value_against_pattern_spec (index : Nat) (prototype_spec : Pattern)
    (rule_value : Term) : PolarResult RuleParamMatch :=
  match prototype_spec with
  | .Instance tag pfields =>
      match rule_value with
      | .Str _ =>
          if tag = "String" then .ok .True else
            .ok (.False ("Invalid parameter " ++ toString index ++ ". Rule prototype expected "
              ++ tag ++ ", got " ++ rule_value.to_polar ++ ". "))
      | .Integer _ =>
          if tag = "Integer" then .ok .True else
            .ok (.False ("Invalid parameter " ++ toString index ++ ". Rule prototype expected "
              ++ tag ++ ", got " ++ rule_value.to_polar ++ ". "))
      | .FloatBits _ =>
          if tag = "Float" then .ok .True else
            .ok (.False ("Invalid parameter " ++ toString index ++ ". Rule prototype expected "
              ++ tag ++ ", got " ++ rule_value.to_polar ++ ". "))
      | .Boolean _ =>
          if tag = "Boolean" then .ok .True else
            .ok (.False ("Invalid parameter " ++ toString index ++ ". Rule prototype expected "
              ++ tag ++ ", got " ++ rule_value.to_polar ++ ". "))
      | .Lst _ =>
          if tag = "List" then .ok .True else
            .ok (.False ("Invalid parameter " ++ toString index ++ ". Rule prototype expected "
              ++ tag ++ ", got " ++ rule_value.to_polar ++ ". "))
      | .Dict rfields =>
          if tag = "Dictionary" && param_fields_match pfields rfields then .ok .True else
            .ok (.False ("Invalid parameter " ++ toString index ++ ". Rule prototype expected "
              ++ tag ++ ", got " ++ rule_value.to_polar ++ ". "))
      | _ =>
          .error (.Panic ("Value variant " ++ rule_value.to_polar ++ " cannot be a specializer"))
  | .Dictionary pfields =>
      match rule_value with
      | .Dict rfields =>
          if param_fields_match pfields rfields then
            .ok .True
          else
            .ok (.False ("Invalid parameter " ++ toString index
              ++ ". Rule prototype expected Dictionary with fields "
              ++ Term.to_polar (.Dict pfields) ++ ", got dictionary with fields "
              ++ Term.to_polar (.Dict rfields) ++ "."))
      | _ =>
          .ok (.False ("Invalid parameter " ++ toString index
            ++ ". Rule prototype expected Dictionary, got " ++ rule_value.to_polar ++ "."))

/-- Embeds `check_param`: check a single rule parameter against a prototype parameter.
The arms appear in the source's order; the `Value::Pattern` cases are spelled
with the flattened `InstancePat`/`DictPat` constructors. -/
def check_param (kb : KnowledgeBase) (index : Nat)
    (rule_param prototype_param : Parameter) : PolarResult RuleParamMatch :=
  match prototype_param.parameter, prototype_param.specializer,
        rule_param.parameter, rule_param.specializer with
  | .Variable _, some (.InstancePat ptag pfields), .Variable _, some (.InstancePat rtag rfields) =>
      check_pattern_param kb index (.Instance rtag rfields) (.Instance ptag pfields)
  | .Variable _, some (.InstancePat ptag pfields), .Variable _, some (.DictPat rfields) =>
      check_pattern_param kb index (.Dictionary rfields) (.Instance ptag pfields)
  | .Variable _, some (.DictPat pfields), .Variable _, some (.InstancePat rtag rfields) =>
      check_pattern_param kb index (.Instance rtag rfields) (.Dictionary pfields)
  | .Variable _, some (.DictPat pfields), .Variable _, some (.DictPat rfields) =>
      check_pattern_param kb index (.Dictionary rfields) (.Dictionary pfields)
  | .Variable _, some prototype_spec, .Variable _, none =>
      .ok (.False ("Invalid rule parameter " ++ toString index ++ ". Rule prototype expected "
        ++ prototype_spec.to_polar))
  | .Variable _, some (.InstancePat tag pfields), .Variable _, some rule_value =>
      check_value_against_pattern_spec index (.Instance tag pfields) rule_value
  | .Variable _, some (.InstancePat tag pfields), rule_value, none =>
      check_value_against_pattern_spec index (.Instance tag pfields) rule_value
  | .Variable _, some (.DictPat pfields), .Variable _, some rule_value =>
      check_value_against_pattern_spec index (.Dictionary pfields) rule_value
  | .Variable _, some (.DictPat pfields), rule_value, none =>
      check_value_against_pattern_spec index (.Dictionary pfields) rule_value
  | .Variable _, none, _, _ => .ok .True
  | .Variable _, some prototype_value, .Variable _, some rule_value =>
      check_value_param index rule_value prototype_value
  | .Variable _, some prototype_value, rule_value, none =>
      check_value_param index rule_value prototype_value
  | prototype_value, none, rule_value, none =>
      check_value_param index rule_value prototype_value
  | _, _, _, _ =>
      .ok (.False ("Invalid parameter " ++ toString index ++ ". Rule parameter "
        ++ rule_param.to_polar ++ " does not match prototype parameter "
        ++ prototype_param.to_polar))

/-- The indexed parameter checks of `rule_params_match` (1-indexed, collected
left to right, stopping at the first operational error). -/
def check_params_list (kb : KnowledgeBase) (index : Nat) :
    List Parameter → List Parameter → PolarResult (List RuleParamMatch)
  | [], _ => .ok []
  | _, [] => .ok []
  | rp :: rps, pp :: pps => do
      let r ← check_param kb index rp pp
      let rest ← check_params_list kb (index + 1) rps pps
      pure (r :: rest)

/-- First `False` among the parameter results, if any (the source records the
first failing parameter's message via a short-circuiting `all`). -/
def first_failure : List RuleParamMatch → Option RuleParamMatch
  | [] => none
  | .True :: rest => first_failure rest
  | .False msg :: _ => some (.False msg)

/-- Embeds `rule_params_match`: arity check, then positional parameter matching; on the
first failing parameter its reason becomes the rule-level failure message. -/
def rule_params_match (kb : KnowledgeBase) (rule prototype : Rule) :
    PolarResult RuleParamMatch :=
  if rule.params.length ≠ prototype.params.length then
    .ok (.False ("Different number of parameters. Rule has " ++ toString rule.params.length
      ++ " parameter(s) but prototype has " ++ toString prototype.params.length ++ "."))
  else do
    let results ← check_params_list kb 1 rule.params prototype.params
    pure ((first_failure results).getD .True)

/-- The per-prototype match results of `validate_rules`' inner loop: each
prototype paired with its match outcome, stopping at the first operational
error. -/
def prototype_match_results (kb : KnowledgeBase) (rule : Rule) :
    List Rule → PolarResult (List (RuleParamMatch × Rule))
  | [] => .ok []
  | prototype :: rest => do
      let r ← rule_params_match kb rule prototype
      let others ← prototype_match_results kb rule rest
      pure ((r, prototype) :: others)

/-- The short-circuiting `any` of `validate_rules`: `True` found, accumulating
mismatch messages for each prototype seen before the first match. -/
def find_prototype_match : List (RuleParamMatch × Rule) → String → Bool × String
  | [], msg => (false, msg)
  | (.True, _) :: _, msg => (true, msg)
  | (.False message, prototype) :: rest, msg =>
      find_prototype_match rest
        (msg ++ "\n" ++ prototype.to_polar ++ "\n\tFailed to match because: " ++ message ++ "\n")

/-- One rule against all same-named prototypes: must match at least one. -/
def validate_rule_against_prototypes (kb : KnowledgeBase) (rule : Rule)
    (prototypes : List Rule) : PolarResult Unit := do
  let results ← prototype_match_results kb rule prototypes
  let (found_match, msg) :=
    find_prototype_match results "Must match one of the following rule prototypes:\n"
  if found_match then
    pure ()
  else
    .error (.ValidationInvalidRule rule.to_polar msg)

/-- The inner loop of `validate_rules` over one `GenericRule`'s rules. -/
def validate_generic_rule (kb : KnowledgeBase) (prototypes : List Rule) :
    List Rule → PolarResult Unit
  | [] => .ok ()
  | rule :: rest =>
      match validate_rule_against_prototypes kb rule prototypes with
      | .ok () => validate_generic_rule kb prototypes rest
      | .error e => .error e

/-- The outer loop of `validate_rules` over the rule map. -/
def validate_rules_list (kb : KnowledgeBase) :
    List (String × List Rule) → PolarResult Unit
  | [] => .ok ()
  | (rule_name, rules) :: rest =>
      match assoc_lookup kb.rule_prototypes rule_name with
      | some prototypes =>
          match validate_generic_rule kb prototypes rules with
          | .ok () => validate_rules_list kb rest
          | .error e => .error e
      | none => validate_rules_list kb rest

/-- Embeds `validate_rules`: every rule whose name has registered prototypes must match
at least one of them (the source additionally attaches source-location context
to the error, which is dropped here). -/
def validate_rules (kb : KnowledgeBase) : PolarResult Unit :=
  validate_rules_list kb kb.rules

/-- Embeds `add_rule`: append the rule to the `GenericRule` for its name, creating it
if absent (the source keys each rule with a stable insertion index inside the
`GenericRule`; a list in insertion order models that). -/
def add_rule (kb : KnowledgeBase) (rule : Rule) : KnowledgeBase :=
  if (assoc_lookup kb.rules rule.name).isSome then
    let updated := kb.rules.map (fun p => if p.1 = rule.name then (p.1, p.2 ++ [rule]) else p)
    { kb with rules := updated }
  else
    { kb with rules := kb.rules ++ [(rule.name, [rule])] }

/-- Embeds `Term::as_symbol` (from the external term model): succeed on a variable. -/
def Term.as_symbol : Term → PolarResult String
  | .Variable s => .ok s
  | t => .error (.RuntimeTypeError ("Expected symbol, got: " ++ t.to_polar))

/-- Embeds `Term::as_string` (from the external term model): succeed on a string. -/
def Term.as_string : Term → PolarResult String
  | .Str s => .ok s
  | t => .error (.RuntimeTypeError ("Expected string, got: " ++ t.to_polar))

/-- Embeds `Declaration::as_relation_type`. -/
def Declaration.as_relation_type : Declaration → PolarResult Term
  | .Relation relation => .ok relation
  | d => .error (.RuntimeTypeError ("Expected Relation; got: " ++ reprStr d))

/-- Embeds `Declaration::as_rule_name`. -/
def Declaration.as_rule_name : Declaration → String
  | .Role => "has_role"
  | .Permission => "has_permission"
  | .Relation _ => "has_relation"

/-- Embeds `ResourceBlocks::get_declaration_in_resource_block`.  The source indexes
`self.declarations[resource]` directly, panicking when the resource block does
not exist (documented invariant); the panic is modelled as a `Panic` error. -/
def get_declaration_in_resource_block (blocks : ResourceBlocks)
    (declaration resource : Term) : PolarResult Declaration :=
  match assoc_lookup blocks.declarations resource with
  | none => .error (.Panic "resource block does not exist")
  | some decls =>
      match assoc_lookup decls declaration with
      | some d => .ok d
      | none =>
          .error (.ParseSugar ("Undeclared term " ++ declaration.to_polar
            ++ " referenced in rule in the '" ++ resource.to_polar
            ++ "' resource block. Did you mean to declare it as a role, permission, or relation?"))

/-- Embeds `ResourceBlocks::get_relation_type_in_resource_block`. -/
def get_relation_type_in_resource_block (blocks : ResourceBlocks)
    (relation resource : Term) : PolarResult Term := do
  (← get_declaration_in_resource_block blocks relation resource).as_relation_type

/-- Embeds `ResourceBlocks::get_rule_name_for_declaration_in_resource_block`. -/
def get_rule_name_for_declaration_in_resource_block (blocks : ResourceBlocks)
    (declaration resource : Term) : PolarResult String := do
  pure (← get_declaration_in_resource_block blocks declaration resource).as_rule_name

/-- Embeds `ResourceBlocks::get_rule_name_for_declaration_in_related_resource_block`:
traverse to the related block via the relation's declared type, then resolve the
declaration's category there. -/
def get_rule_name_for_declaration_in_related_resource_block (blocks : ResourceBlocks)
    (declaration relation resource : Term) : PolarResult String := do
  let related_block ← get_relation_type_in_resource_block blocks relation resource
  match assoc_lookup blocks.declarations related_block with
  | some declarations =>
      match assoc_lookup declarations declaration with
      | some d => pure d.as_rule_name
      | none =>
          .error (.ParseSugar (resource.to_polar ++ ": Term " ++ declaration.to_polar
            ++ " not declared in related resource block '" ++ related_block.to_polar
            ++ "'. Did you mean to declare it as a role, permission, or relation in the '"
            ++ related_block.to_polar ++ "' resource block?"))
  | none =>
      .error (.ParseSugar (resource.to_polar ++ ": Relation " ++ relation.to_polar
        ++ " in rule body `" ++ declaration.to_polar ++ " on " ++ relation.to_polar
        ++ "` has type '" ++ related_block.to_polar
        ++ "', but no such resource block exists. Try declaring one: `resource "
        ++ related_block.to_polar ++ " \x7b\x7d`"))

/-- Rust's `str::to_lowercase`, modelled by per-character ASCII case mapping
(the two agree on ASCII class names; written over the character list so that it
reduces in the kernel). -/
def lowercase (s : String) : String :=
  ⟨s.data.map Char.toLower⟩

/-- Embeds `resource_as_var`: lowercase the resource's type name, appending
`_instance` only when lowercasing produced no change.  The source's
`.expect("sym")` panic on a non-symbol term is modelled as a `Panic` error. -/
def resource_as_var (resource : Term) : PolarResult Term :=
  match resource with
  | .Variable name =>
      let lowercased := lowercase name
      if lowercased = name then
        .ok (.Variable (lowercased ++ "_instance"))
      else
        .ok (.Variable lowercased)
  | _ => .error (.Panic "sym")

/-- Embeds `implication_body_to_rule_body`: an `And`-wrapped call (local implication)
or pair of calls (cross-resource implication). -/
def implication_body_to_rule_body (body : Term × Option Term) (resource : Term)
    (blocks : ResourceBlocks) : PolarResult Term := do
  let (implier, relation?) := body
  let resource_var ← resource_as_var resource
  let actor_var := Term.Variable "actor"
  match relation? with
  | some relation => do
      let relation_type ← get_relation_type_in_resource_block blocks relation resource
      let relation_type_var ← resource_as_var relation_type
      let relation_call := Term.Call "has_relation"
        (TermList.ofList [relation_type_var, relation, resource_var])
      let implier_rule_name ←
        get_rule_name_for_declaration_in_related_resource_block blocks implier relation resource
      let implier_call := Term.Call implier_rule_name
        (TermList.ofList [actor_var, implier, relation_type_var])
      pure (.Expr .And (TermList.ofList [relation_call, implier_call]))
  | none => do
      let implier_rule_name ←
        get_rule_name_for_declaration_in_resource_block blocks implier resource
      let implier_call := Term.Call implier_rule_name
        (TermList.ofList [actor_var, implier, resource_var])
      pure (.Expr .And (TermList.ofList [implier_call]))

/-- Embeds `implication_head_to_params`: the fixed parameter trio of a rewritten rule.
The source's function is infallible but calls `.expect("sym")` on the resource
term; that panic is modelled as a `Panic` error. -/
def implication_head_to_params (head resource : Term) : PolarResult (List Parameter) := do
  let resource_name ← resource.as_symbol
  let resource_var ← resource_as_var resource
  pure [
    ⟨.Variable "actor", some (.InstancePat "Actor" .nil)⟩,
    ⟨head, none⟩,
    ⟨resource_var, some (.InstancePat resource_name .nil)⟩ ]

/-- Embeds `Implication::as_rule`: rewrite one implication into a concrete rule (the
source also copies the head's source id and span into the rule; dropped). -/
def Implication.as_rule (implication : Implication) (resource_block : Term)
    (blocks : ResourceBlocks) : PolarResult Rule := do
  let name ←
    get_rule_name_for_declaration_in_resource_block blocks implication.head resource_block
  let params ← implication_head_to_params implication.head resource_block
  let body ← implication_body_to_rule_body implication.body resource_block blocks
  pure ⟨name, params, body⟩

/-- Embeds `is_registered_class`. -/
def is_registered_class (kb : KnowledgeBase) (t : Term) : PolarResult Bool := do
  pure (assoc_lookup kb.constants (← t.as_symbol)).isSome

/-- Embeds `relation_type_is_registered`. -/
def relation_type_is_registered (kb : KnowledgeBase) (relation kind : Term) :
    PolarResult Unit := do
  let registered ← is_registered_class kb kind
  if !registered then
    let relation_str ← relation.as_string
    .error (.ParseSugar ("Type '" ++ kind.to_polar ++ "' in relation '" ++ relation_str
      ++ ": " ++ kind.to_polar ++ "' must be registered as a class."))
  else
    pure ()

/-- Embeds `check_all_relation_types_have_been_registered`: collect, across all
accumulated blocks, the errors of every declared relation whose type is not a
registered class. -/
def check_all_relation_types_have_been_registered (kb : KnowledgeBase) : List PolarError :=
  kb.resource_blocks.declarations.foldl
    (fun errs pair =>
      pair.2.foldl
        (fun es dp =>
          match dp.2 with
          | .Relation relation_type =>
              match relation_type_is_registered kb dp.1 relation_type with
              | .error e => es ++ [e]
              | .ok () => es
          | _ => es)
        errs)
    []

/-- The rewrite loop of `rewrite_implications`: every implication of every
accumulated block, splitting successes from errors. -/
def rewrite_all_implications (blocks : ResourceBlocks) : List Rule × List PolarError :=
  blocks.implications.foldl
    (fun acc pair =>
      pair.2.foldl
        (fun acc2 implication =>
          match implication.as_rule pair.1 blocks with
          | .ok rule => (acc2.1 ++ [rule], acc2.2)
          | .error e => (acc2.1, acc2.2 ++ [e]))
        acc)
    ([], [])

/-- Embeds `rewrite_implications`: check relation types, rewrite every implication,
clear the resource-block state on every path, and merge the generated rules
into the rule set only on full success.  Returned as updated state plus an
optional error (the source surfaces only the first accumulated error). -/
def rewrite_implications (kb : KnowledgeBase) : KnowledgeBase × Option PolarError :=
  match check_all_relation_types_have_been_registered kb with
  | e :: _ => ({ kb with resource_blocks := kb.resource_blocks.clear }, some e)
  | [] =>
      let (rules, errors) := rewrite_all_implications kb.resource_blocks
      let kb1 := { kb with resource_blocks := kb.resource_blocks.clear }
      match errors with
      | e :: _ => (kb1, some e)
      | [] => (rules.foldl add_rule kb1, none)

/-- Embeds `check_file`: the duplicate-load checks for a filename-carrying source. -/
def check_file (kb : KnowledgeBase) (src filename : String) : PolarResult Unit :=
  match assoc_lookup kb.loaded_content src, (assoc_lookup kb.loaded_files filename).isSome with
  | some other_file, true =>
      if other_file = filename then
        .error (.RuntimeFileLoading ("File " ++ filename ++ " has already been loaded."))
      else
        .error (.RuntimeFileLoading ("A file with the name " ++ filename
          ++ ", but different contents has already been loaded."))
  | none, true =>
      .error (.RuntimeFileLoading ("A file with the name " ++ filename
        ++ ", but different contents has already been loaded."))
  | some other_file, false =>
      .error (.RuntimeFileLoading ("A file with the same contents as " ++ filename
        ++ " named " ++ other_file ++ " has already been loaded."))
  | none, false => .ok ()

/-- Embeds `add_source`: compute a fresh id, run the duplicate checks when a filename
is present, record the bookkeeping, and store the source.  The id counter is
consumed even when the checks fail (the source bumps it through interior
mutability before checking), so the updated state is returned alongside the
result. -/
def add_source (kb : KnowledgeBase) (source : Source) :
    KnowledgeBase × PolarResult Nat :=
  let (src_id, kb1) := kb.new_id
  match source.filename with
  | some filename =>
      match check_file kb1 source.src filename with
      | .error e => (kb1, .error e)
      | .ok () =>
          let kb2 := { kb1 with
            loaded_content := assoc_insert kb1.loaded_content source.src filename,
            loaded_files := assoc_insert kb1.loaded_files filename src_id }
          ({ kb2 with sources := assoc_insert kb2.sources src_id source }, .ok src_id)
  | none =>
      ({ kb1 with sources := assoc_insert kb1.sources src_id source }, .ok src_id)

/-! Concrete instances used by the verification theorems below. -/

/-- Constants register classes `A` (id 1) and `B` (id 2); only `B` has an MRO,
`[2, 1]`, so `B` is a subclass of `A` while `A` itself has no registered MRO. -/
def kbC1 : KnowledgeBase := { KnowledgeBase.empty with
  constants := [("A", .ExternalInstance 1), ("B", .ExternalInstance 2)],
  mro := [("B", [2, 1])] }

/-- A knowledge base with no registered constants at all. -/
def kbC10 : KnowledgeBase := KnowledgeBase.empty

/-- A knowledge base whose constant `A` is bound to a non-`ExternalInstance`
value. -/
def kbC10b : KnowledgeBase := { KnowledgeBase.empty with
  constants := [("A", .Boolean true)] }

/-- Declarations of the spec's `Org` block: roles `"owner"` and `"member"`. -/
def orgDeclsC2 : Declarations := [(.Str "owner", .Role), (.Str "member", .Role)]

def blocksC2 : ResourceBlocks :=
  ⟨[(.Variable "Org", orgDeclsC2)], [(.Variable "Org", [])], [], [.Variable "Org"]⟩

/-- Declarations of the spec's `Repo` block: role `"reader"`, relation
`parent: Org`. -/
def repoDeclsC3 : Declarations :=
  [(.Str "reader", .Role), (.Str "parent", .Relation (.Variable "Org"))]

def orgDeclsC3 : Declarations := [(.Str "member", .Role)]

def blocksC3 : ResourceBlocks :=
  ⟨[(.Variable "Repo", repoDeclsC3), (.Variable "Org", orgDeclsC3)],
   [(.Variable "Repo", []), (.Variable "Org", [])], [], [.Variable "Repo", .Variable "Org"]⟩

/-- The `Repo` block alone: the related `Org` block is missing. -/
def blocksC3_no_org : ResourceBlocks :=
  ⟨[(.Variable "Repo", repoDeclsC3)], [(.Variable "Repo", [])], [], [.Variable "Repo"]⟩

/-- Blocks `Repo` plus an `Org` block that declares nothing. -/
def blocksC3_empty_org : ResourceBlocks :=
  ⟨[(.Variable "Repo", repoDeclsC3), (.Variable "Org", [])],
   [(.Variable "Repo", []), (.Variable "Org", [])], [], [.Variable "Repo", .Variable "Org"]⟩

/-- Implication `"reader" if "member" on "parent";` in the `Repo` block. -/
def implC3 : Implication := ⟨.Str "reader", (.Str "member", some (.Str "parent"))⟩

def errC3_no_block : PolarError := .ParseSugar
  "Repo: Relation \"parent\" in rule body `\"member\" on \"parent\"` has type 'Org', but no such resource block exists. Try declaring one: `resource Org \x7b\x7d`"

def errC3_undeclared : PolarError := .ParseSugar
  "Repo: Term \"member\" not declared in related resource block 'Org'. Did you mean to declare it as a role, permission, or relation in the 'Org' resource block?"

def ruleOrangeC4 : Rule :=
  ⟨"f", [⟨.Variable "x", some (.InstancePat "Orange" .nil)⟩], .Boolean true⟩

/-- A prototype with a second parameter, so its arity is 2. -/
def protoTwoParamsC4 : Rule :=
  ⟨"f", [⟨.Variable "x", some (.InstancePat "Orange" .nil)⟩, ⟨.Integer 1, none⟩], .Boolean true⟩

/-- Rules named `g` only; the sole prototype is for name `f`. -/
def kbC4_no_protos : KnowledgeBase := { KnowledgeBase.empty with
  rules := [("g", [⟨"g", [], .Boolean true⟩])],
  rule_prototypes := [("f", [ruleOrangeC4])] }

/-- A rule of arity 1 whose only same-named prototype has arity 2. -/
def kbC4_arity : KnowledgeBase := { KnowledgeBase.empty with
  rules := [("f", [ruleOrangeC4])],
  rule_prototypes := [("f", [protoTwoParamsC4])] }

/-- Accumulated `Repo` block declaring `parent: Org` with `Org` unregistered. -/
def kbC5 : KnowledgeBase := { KnowledgeBase.empty with
  resource_blocks :=
    ⟨[(.Variable "Repo", [(.Str "parent", .Relation (.Variable "Org"))])],
     [(.Variable "Repo", [])], [], [.Variable "Repo"]⟩ }

def errC5 : PolarError :=
  .ParseSugar "Type 'Org' in relation 'parent: Org' must be registered as a class."

/-- A knowledge base that has loaded file `a.polar` with content `x = 1;`. -/
def kbC6 : KnowledgeBase := { KnowledgeBase.empty with
  loaded_files := [("a.polar", 0)],
  loaded_content := [("x = 1;", "a.polar")],
  id_counter := ⟨1⟩ }

def errC6_already : PolarError :=
  .RuntimeFileLoading "File a.polar has already been loaded."

def errC6_diff_content : PolarError :=
  .RuntimeFileLoading "A file with the name a.polar, but different contents has already been loaded."

def errC6_diff_name : PolarError :=
  .RuntimeFileLoading "A file with the same contents as b.polar named a.polar has already been loaded."

def fieldsId : Fields := .cons "id" (.Integer 1) .nil

def fieldsIdName : Fields := .cons "id" (.Integer 1) (.cons "name" (.Str "Dave") .nil)

/-! Helper lemmas shared by the verification theorems. -/

theorem assoc_insert_self {α β : Type} [DecidableEq α] (m : List (α × β)) (k : α) (v : β) :
    assoc_lookup (assoc_insert m k v) k = some v := by
  induction m with
  | nil => simp [assoc_insert, assoc_lookup]
  | cons p rest ih =>
      rcases p with ⟨k1, v1⟩
      by_cases h : k1 = k <;> simp [assoc_insert, assoc_lookup, h, ih]

theorem add_rule_resource_blocks (kb : KnowledgeBase) (r : Rule) :
    (add_rule kb r).resource_blocks = kb.resource_blocks := by
  unfold add_rule
  split <;> rfl

theorem foldl_add_rule_resource_blocks (l : List Rule) (kb : KnowledgeBase) :
    (l.foldl add_rule kb).resource_blocks = kb.resource_blocks := by
  induction l generalizing kb with
  | nil => rfl
  | cons r rest ih => simpa [List.foldl, add_rule_resource_blocks] using ih (add_rule kb r)

theorem field_value_matches_iff (rule_fields : Fields) (k : String) (v : Term) :
    field_value_matches rule_fields k v = true ↔ rule_fields.lookup k = some v := by
  unfold field_value_matches
  cases h : rule_fields.lookup k with
  | none => simp
  | some rv => simp [eq_comm]

theorem param_fields_match_iff :
    ∀ prototype_fields rule_fields : Fields,
      param_fields_match prototype_fields rule_fields = true ↔
        ∀ kv ∈ prototype_fields.entries, rule_fields.lookup kv.1 = some kv.2
  | .nil, rule_fields => by simp [param_fields_match, Fields.entries]
  | .cons k v rest, rule_fields => by
      have ih := param_fields_match_iff rest rule_fields
      simp [param_fields_match, Fields.entries, Bool.and_eq_true, ih,
        field_value_matches_iff]

theorem find_prototype_match_fst :
    ∀ (results : List (RuleParamMatch × Rule)) (msg : String),
      (find_prototype_match results msg).1 = results.any (fun rp => rp.1.isTrue)
  | [], _ => rfl
  | (.True, p) :: rest, msg => by
      simp [find_prototype_match, RuleParamMatch.isTrue]
  | (.False m, p) :: rest, msg => by
      simp [find_prototype_match, RuleParamMatch.isTrue,
        find_prototype_match_fst rest]

theorem prototype_match_results_total (kb : KnowledgeBase) (rule : Rule) :
    ∀ prototypes : List Rule,
      (∀ p ∈ prototypes, ∃ r, rule_params_match kb rule p = .ok r) →
      ∃ rs, prototype_match_results kb rule prototypes = .ok rs ∧
        ((rs.any fun rp => rp.1.isTrue) = true ↔
          ∃ p ∈ prototypes, rule_params_match kb rule p = .ok .True) := by
  intro prototypes
  induction prototypes with
  | nil =>
      intro _
      exact ⟨[], rfl, by simp⟩
  | cons p ps ih =>
      intro H
      obtain ⟨r, hr⟩ := H p (List.mem_cons_self p ps)
      obtain ⟨rs, hrs, hiff⟩ := ih (fun q hq => H q (List.mem_cons_of_mem p hq))
      refine ⟨(r, p) :: rs, ?_, ?_⟩
      · unfold prototype_match_results
        rw [hr, hrs]
        rfl
      · rw [List.any_cons]
        cases r with
        | True =>
            rw [show RuleParamMatch.isTrue ((RuleParamMatch.True, p)).1 = true from rfl,
              Bool.true_or]
            constructor
            · intro _
              exact ⟨p, List.mem_cons_self p ps, hr⟩
            · intro _
              rfl
        | False m =>
            rw [show RuleParamMatch.isTrue ((RuleParamMatch.False m, p)).1 = false from rfl,
              Bool.false_or, hiff]
            constructor
            · rintro ⟨q, hq, hqt⟩
              exact ⟨q, List.mem_cons_of_mem p hq, hqt⟩
            · rintro ⟨q, hq, hqt⟩
              rcases List.mem_cons.mp hq with hq | hq
              · subst hq
                rw [hr] at hqt
                exact absurd (Except.ok.inj hqt) (by simp)
              · exact ⟨q, hq, hqt⟩

theorem validate_rule_against_prototypes_ok_iff (kb : KnowledgeBase) (rule : Rule)
    (prototypes : List Rule)
    (H : ∀ p ∈ prototypes, ∃ r, rule_params_match kb rule p = .ok r) :
    validate_rule_against_prototypes kb rule prototypes = .ok () ↔
      ∃ p ∈ prototypes, rule_params_match kb rule p = .ok .True := by
  obtain ⟨rs, hrs, hiff⟩ := prototype_match_results_total kb rule prototypes H
  rw [← hiff]
  unfold validate_rule_against_prototypes
  rw [hrs]
  show (match find_prototype_match rs "Must match one of the following rule prototypes:\n" with
    | (found_match, msg) =>
        if found_match then pure () else
          Except.error (.ValidationInvalidRule rule.to_polar msg) : PolarResult Unit) = .ok () ↔ _
  rcases hfm : find_prototype_match rs "Must match one of the following rule prototypes:\n"
    with ⟨found, msg⟩
  have hf : found = rs.any (fun rp => rp.1.isTrue) := by
    rw [← find_prototype_match_fst rs "Must match one of the following rule prototypes:\n", hfm]
  subst hf
  cases hany : rs.any (fun rp => rp.1.isTrue) with
  | false => simp [hany]
  | true =>
      constructor
      · intro _
        rfl
      · intro _
        rfl

theorem validate_generic_rule_ok_iff (kb : KnowledgeBase) (prototypes : List Rule) :
    ∀ rules : List Rule,
      validate_generic_rule kb prototypes rules = .ok () ↔
        ∀ r ∈ rules, validate_rule_against_prototypes kb r prototypes = .ok ()
  | [] => by simp [validate_generic_rule]
  | rule :: rest => by
      unfold validate_generic_rule
      cases h : validate_rule_against_prototypes kb rule prototypes with
      | ok u =>
          cases u
          dsimp only
          rw [validate_generic_rule_ok_iff kb prototypes rest]
          constructor
          · intro hrest r hr
            rcases List.mem_cons.mp hr with hr | hr
            · subst hr
              exact h
            · exact hrest r hr
          · intro hall r hr
            exact hall r (List.mem_cons_of_mem _ hr)
      | error e =>
          dsimp only
          constructor
          · intro hfalse
            exact absurd hfalse (by simp)
          · intro hall
            have h2 := hall rule (List.mem_cons_self rule rest)
            rw [h] at h2
            exact absurd h2 (by simp)

theorem validate_rules_list_ok_iff (kb : KnowledgeBase) :
    ∀ l : List (String × List Rule),
      validate_rules_list kb l = .ok () ↔
        ∀ p ∈ l, ∀ prototypes, assoc_lookup kb.rule_prototypes p.1 = some prototypes →
          validate_generic_rule kb prototypes p.2 = .ok ()
  | [] => by simp [validate_rules_list]
  | (rule_name, rules) :: rest => by
      unfold validate_rules_list
      cases hl : assoc_lookup kb.rule_prototypes rule_name with
      | none =>
          dsimp only
          rw [validate_rules_list_ok_iff kb rest]
          constructor
          · intro hrest p hp prototypes hproto
            rcases List.mem_cons.mp hp with hp | hp
            · subst hp
              rw [hl] at hproto
              cases hproto
            · exact hrest p hp prototypes hproto
          · intro hall p hp prototypes hproto
            exact hall p (List.mem_cons_of_mem _ hp) prototypes hproto
      | some prototypes =>
          dsimp only
          cases hg : validate_generic_rule kb prototypes rules with
          | ok u =>
              cases u
              dsimp only
              rw [validate_rules_list_ok_iff kb rest]
              constructor
              · intro hrest p hp ps hps
                rcases List.mem_cons.mp hp with hp | hp
                · subst hp
                  rw [hl] at hps
                  cases hps
                  exact hg
                · exact hrest p hp ps hps
              · intro hall p hp ps hps
                exact hall p (List.mem_cons_of_mem _ hp) ps hps
          | error e =>
              dsimp only
              constructor
              · intro hfalse
                exact absurd hfalse (by simp)
              · intro hall
                have h2 := hall (rule_name, rules) (List.mem_cons_self _ _) prototypes hl
                rw [hg] at h2
                exact absurd h2 (by simp)

theorem rule_params_match_arity (kb : KnowledgeBase) (rule prototype : Rule)
    (h : rule.params.length ≠ prototype.params.length) :
    rule_params_match kb rule prototype =
      .ok (.False ("Different number of parameters. Rule has " ++ toString rule.params.length
        ++ " parameter(s) but prototype has " ++ toString prototype.params.length ++ ".")) := by
  unfold rule_params_match
  rw [if_pos h]

/-! The claim theorems. -/

/-- C7: dictionary/instance field matching (`param_fields_match`) returns true
iff every key of the prototype's fields is present in the rule's fields with an
equal value, and the relation is not symmetric: `{id: 1, name: "Dave"}` matches
prototype `{id: 1}` while the reverse does not. -/
theorem claim_C7 :
    (∀ prototype_fields rule_fields : Fields,
        param_fields_match prototype_fields rule_fields = true ↔
          ∀ kv ∈ prototype_fields.entries, rule_fields.lookup kv.1 = some kv.2) ∧
    param_fields_match fieldsId fieldsIdName = true ∧
    param_fields_match fieldsIdName fieldsId = false :=
  ⟨param_fields_match_iff, by decide, by decide⟩

/-- C7 witness: the characterization applied at `{id: 1}` against
`{id: 1, name: "Dave"}` yields the concrete field lookup. -/
theorem claim_C7_witness : fieldsIdName.lookup "id" = some (.Integer 1) := by
  have h := (claim_C7.1 fieldsId fieldsIdName).mp (by decide)
  exact h ("id", .Integer 1) (by decide)

/-- C8: the generated resource variable's name is the lowercasing of the
resource's name, with `_instance` appended iff lowercasing produced no change;
`Org` yields variable `org` and `repo` yields variable `repo_instance`. -/
theorem claim_C8 :
    resource_as_var (.Variable "Org") = .ok (.Variable "org") ∧
    resource_as_var (.Variable "repo") = .ok (.Variable "repo_instance") ∧
    (∀ name : String, lowercase name = name →
        resource_as_var (.Variable name) = .ok (.Variable (name ++ "_instance"))) ∧
    (∀ name : String, lowercase name ≠ name →
        resource_as_var (.Variable name) = .ok (.Variable (lowercase name))) := by
  refine ⟨by decide, by decide, ?_, ?_⟩
  · intro name h
    simp [resource_as_var, h]
  · intro name h
    simp [resource_as_var, h]

/-- C8 witness: the general equations applied at the already-lowercase name
`v2` and the mixed-case name `Repo`. -/
theorem claim_C8_witness :
    resource_as_var (.Variable "v2") = .ok (.Variable "v2_instance") ∧
    resource_as_var (.Variable "Repo") = .ok (.Variable "repo") := by
  constructor
  · exact claim_C8.2.2.1 "v2" (by decide)
  · have h := claim_C8.2.2.2 "Repo" (by decide)
    have e : lowercase "Repo" = "repo" := by decide
    rw [e] at h
    exact h

/-- C9: `add_source` on a source with no filename always succeeds with a fresh
id and performs no duplicate detection and no `loaded_files`/`loaded_content`
bookkeeping — regardless of what content is already loaded under filenames. -/
theorem claim_C9 :
    ∀ (kb : KnowledgeBase) (src : String),
      (add_source kb ⟨none, src⟩).2 = .ok (kb.id_counter.next_id % MAX_ID) ∧
      (add_source kb ⟨none, src⟩).1.loaded_files = kb.loaded_files ∧
      (add_source kb ⟨none, src⟩).1.loaded_content = kb.loaded_content ∧
      (add_source kb ⟨none, src⟩).1.sources =
        assoc_insert kb.sources (kb.id_counter.next_id % MAX_ID) ⟨none, src⟩ := by
  intro kb src
  exact ⟨rfl, rfl, rfl, rfl⟩

/-- C1 (amended): with different instance-pattern tags and the prototype's tag
registered as an external-instance constant, matching returns True iff that
instance id is in the RULE tag's MRO chain and the prototype's fields
superset-match the rule's fields; the operational error (invariant violation)
is raised when the RULE's tag — not, as the claim states it, the prototype's
tag T — has no registered MRO. -/
theorem claim_C1_amended :
    ∀ (kb : KnowledgeBase) (index : Nat) (ptag rtag : String) (pfields rfields : Fields)
      (instance_id : Nat),
      ptag ≠ rtag →
      assoc_lookup kb.constants ptag = some (.ExternalInstance instance_id) →
      (∀ rule_mro, assoc_lookup kb.mro rtag = some rule_mro →
        (check_pattern_param kb index (.Instance rtag rfields) (.Instance ptag pfields) =
            .ok .True ↔
          rule_mro.contains instance_id = true ∧
            param_fields_match pfields rfields = true)) ∧
      (assoc_lookup kb.mro rtag = none →
        check_pattern_param kb index (.Instance rtag rfields) (.Instance ptag pfields) =
          .error (.OperationalInvalidState
            ("All registered classes must have a registered MRO. Class " ++ rtag
              ++ " does not have a registered MRO."))) := by
  intro kb index ptag rtag pfields rfields instance_id hne hc
  constructor
  · intro rule_mro hm
    simp only [check_pattern_param, if_neg hne, hc, hm]
    cases h1 : rule_mro.contains instance_id <;>
      cases h2 : param_fields_match pfields rfields <;>
        simp [h1, h2]
  · intro hm
    simp only [check_pattern_param, if_neg hne, hc, hm]

/-- C1 counterexample: the prototype's tag `A` has no registered MRO, yet
matching a rule specialized on `B` (whose MRO contains A's registered id)
against a prototype specialized on `A` returns True — not the operational error
the claim requires whenever T has no registered MRO. -/
theorem claim_C1_counterexample :
    assoc_lookup kbC1.mro "A" = none ∧
    check_pattern_param kbC1 1 (.Instance "B" .nil) (.Instance "A" .nil) = .ok .True ∧
    check_pattern_param kbC1 1 (.Instance "B" .nil) (.Instance "A" .nil) ≠
      .error (.OperationalInvalidState
        ("All registered classes must have a registered MRO. Class " ++ "A"
          ++ " does not have a registered MRO.")) := by
  exact ⟨rfl, by decide, by decide⟩

/-- C1 witness: the amended theorem applied at `kbC1` — a `B`-specialized rule
matches an `A`-specialized prototype (B's MRO contains A's id 1), and swapping
the roles hits the missing-MRO operational error for rule tag `A`. -/
theorem claim_C1_witness :
    check_pattern_param kbC1 1 (.Instance "B" .nil) (.Instance "A" .nil) = .ok .True ∧
    check_pattern_param kbC1 1 (.Instance "A" .nil) (.Instance "B" .nil) =
      .error (.OperationalInvalidState
        ("All registered classes must have a registered MRO. Class " ++ "A"
          ++ " does not have a registered MRO.")) := by
  constructor
  · exact ((claim_C1_amended kbC1 1 "A" "B" .nil .nil 1 (by decide) (by decide)).1
      [2, 1] (by decide)).mpr (by decide)
  · exact (claim_C1_amended kbC1 1 "B" "A" .nil .nil 2 (by decide) (by decide)).2 (by decide)

/-- C10: when every instance-pattern prototype specializer's tag is bound in
the constants registry to an `ExternalInstance`, `check_pattern_param` never
reaches the `unreachable!` panic branch; without that precondition, matching
instance patterns with different tags panics (modelled as the distinguished
`Panic` outcome) both for an unregistered tag (`kbC10`) and for a tag bound to
a non-`ExternalInstance` value (`kbC10b`). -/
theorem claim_C10 :
    (∀ (kb : KnowledgeBase) (index : Nat) (rule_pattern prototype_pattern : Pattern),
        (∀ tag fields, prototype_pattern = .Instance tag fields →
          ∃ instance_id,
            assoc_lookup kb.constants tag = some (.ExternalInstance instance_id)) →
        ∀ msg, check_pattern_param kb index rule_pattern prototype_pattern ≠
          .error (.Panic msg)) ∧
    check_pattern_param kbC10 1 (.Instance "B" .nil) (.Instance "A" .nil) =
      .error (.Panic "Unregistered specializer classes should be caught before this point.") ∧
    check_pattern_param kbC10b 1 (.Instance "B" .nil) (.Instance "A" .nil) =
      .error (.Panic "Unregistered specializer classes should be caught before this point.") := by
  refine ⟨?_, by decide, by decide⟩
  intro kb index rule_pattern prototype_pattern H msg
  cases prototype_pattern with
  | Dictionary pfields =>
      cases rule_pattern <;> simp only [check_pattern_param] <;> split_ifs <;> simp
  | Instance ptag pfields =>
      obtain ⟨instance_id, hc⟩ := H ptag pfields rfl
      cases rule_pattern with
      | Dictionary rfields =>
          simp only [check_pattern_param]
          split_ifs <;> simp
      | Instance rtag rfields =>
          by_cases he : ptag = rtag
          · simp only [check_pattern_param, if_pos he]
            split_ifs <;> simp
          · simp only [check_pattern_param, if_neg he, hc]
            cases hm : assoc_lookup kb.mro rtag with
            | none => simp [hm]
            | some m =>
                simp only [hm]
                split_ifs <;> simp

/-- C10 witness: the no-panic theorem applied at `kbC1`, whose prototype tag
`A` is registered as an external instance. -/
theorem claim_C10_witness :
    check_pattern_param kbC1 1 (.Instance "B" .nil) (.Instance "A" .nil) ≠
      .error (.Panic "x") := by
  refine claim_C10.1 kbC1 1 (.Instance "B" .nil) (.Instance "A" .nil) ?_ "x"
  intro tag fields h
  injection h with h1 h2
  subst h1
  exact ⟨1, by decide⟩

/-- C4: `validate_rules` succeeds iff every rule passes its per-name prototype
check; it succeeds whenever no prototype shares a rule's name; a rule with
same-named prototypes passes iff it matches at least one of them (logical OR,
under the precondition that no per-prototype check raises an operational
error); and it fails whenever some rule's parameter count differs from every
same-named prototype's. -/
theorem claim_C4 :
    (∀ kb : KnowledgeBase,
        validate_rules kb = .ok () ↔
          ∀ p ∈ kb.rules, ∀ prototypes,
            assoc_lookup kb.rule_prototypes p.1 = some prototypes →
            validate_generic_rule kb prototypes p.2 = .ok ()) ∧
    (∀ kb : KnowledgeBase,
        (∀ p ∈ kb.rules, assoc_lookup kb.rule_prototypes p.1 = none) →
        validate_rules kb = .ok ()) ∧
    (∀ (kb : KnowledgeBase) (rule : Rule) (prototypes : List Rule),
        (∀ p ∈ prototypes, ∃ r, rule_params_match kb rule p = .ok r) →
        (validate_rule_against_prototypes kb rule prototypes = .ok () ↔
          ∃ p ∈ prototypes, rule_params_match kb rule p = .ok .True)) ∧
    (∀ (kb : KnowledgeBase) (name : String) (rules : List Rule) (rule : Rule)
        (prototypes : List Rule),
        (name, rules) ∈ kb.rules → rule ∈ rules →
        assoc_lookup kb.rule_prototypes name = some prototypes →
        (∀ p ∈ prototypes, p.params.length ≠ rule.params.length) →
        validate_rules kb ≠ .ok ()) := by
  refine ⟨?_, ?_, ?_, ?_⟩
  · intro kb
    exact validate_rules_list_ok_iff kb kb.rules
  · intro kb h
    unfold validate_rules
    rw [validate_rules_list_ok_iff]
    intro p hp prototypes hproto
    rw [h p hp] at hproto
    cases hproto
  · intro kb rule prototypes H
    exact validate_rule_against_prototypes_ok_iff kb rule prototypes H
  · intro kb name rules rule prototypes hmem hrule hproto harities hok
    unfold validate_rules at hok
    rw [validate_rules_list_ok_iff] at hok
    have hg := hok (name, rules) hmem prototypes hproto
    rw [validate_generic_rule_ok_iff] at hg
    have hr := hg rule hrule
    have H : ∀ p ∈ prototypes, ∃ r, rule_params_match kb rule p = .ok r := by
      intro p hp
      exact ⟨_, rule_params_match_arity kb rule p (fun e => harities p hp e.symm)⟩
    rw [validate_rule_against_prototypes_ok_iff kb rule prototypes H] at hr
    obtain ⟨p, hp, hpt⟩ := hr
    have harr := rule_params_match_arity kb rule p (fun e => harities p hp e.symm)
    rw [harr] at hpt
    exact absurd (Except.ok.inj hpt) (by simp)

/-- C4 witness: concrete applications — a knowledge base whose only prototype
name has no rules passes; a rule matches itself when it is its name's sole
prototype; a rule of arity 1 with only an arity-2 same-named prototype makes
`validate_rules` fail. -/
theorem claim_C4_witness :
    validate_rules kbC4_no_protos = .ok () ∧
    validate_rule_against_prototypes KnowledgeBase.empty ruleOrangeC4 [ruleOrangeC4] =
      .ok () ∧
    validate_rules kbC4_arity ≠ .ok () := by
  refine ⟨?_, ?_, ?_⟩
  · exact claim_C4.2.1 kbC4_no_protos (by decide)
  · refine (claim_C4.2.2.1 KnowledgeBase.empty ruleOrangeC4 [ruleOrangeC4] ?_).mpr ?_
    · intro p hp
      rw [List.mem_singleton] at hp
      subst hp
      exact ⟨.True, by decide⟩
    · exact ⟨ruleOrangeC4, List.mem_singleton.mpr rfl, by decide⟩
  · exact claim_C4.2.2.2 kbC4_arity "f" [ruleOrangeC4] ruleOrangeC4 [protoTwoParamsC4]
      (by decide) (by decide) (by decide) (by decide)

/-- C2: rewriting a local implication `"head" if "implier";` in a block whose
declarations contain both names produces a rule named by the head's category
(`Role ↦ has_role`, `Permission ↦ has_permission`, `Relation ↦ has_relation`),
with parameters `actor: Actor{}`, the unspecialized head term, and the resource
variable specialized on an instance pattern tagged with the resource's name,
and a body that is a conjunction node wrapping the single call
`<implier-category-rule-name>(actor, implier, resource_var)`. -/
theorem claim_C2 :
    (∀ (blocks : ResourceBlocks) (resource : Term) (resource_name : String)
        (decls : Declarations) (head implier : Term) (dh di : Declaration)
        (resource_var : Term),
        resource = .Variable resource_name →
        assoc_lookup blocks.declarations resource = some decls →
        assoc_lookup decls head = some dh →
        assoc_lookup decls implier = some di →
        resource_as_var resource = .ok resource_var →
        Implication.as_rule ⟨head, (implier, none)⟩ resource blocks =
          .ok ⟨dh.as_rule_name,
            [⟨.Variable "actor", some (.InstancePat "Actor" .nil)⟩,
             ⟨head, none⟩,
             ⟨resource_var, some (.InstancePat resource_name .nil)⟩],
            .Expr .And (TermList.ofList
              [.Call di.as_rule_name
                (TermList.ofList [.Variable "actor", implier, resource_var])])⟩) ∧
    Declaration.as_rule_name .Role = "has_role" ∧
    Declaration.as_rule_name .Permission = "has_permission" ∧
    (∀ t, Declaration.as_rule_name (.Relation t) = "has_relation") := by
  refine ⟨?_, rfl, rfl, fun t => rfl⟩
  intro blocks resource resource_name decls head implier dh di resource_var
    h1 h2 h3 h4 h5
  subst h1
  simp only [Implication.as_rule, get_rule_name_for_declaration_in_resource_block,
    get_declaration_in_resource_block, h2, h3, h4, implication_head_to_params,
    Term.as_symbol, h5, implication_body_to_rule_body, bind, Except.bind, pure,
    Except.pure]

/-- C2 witness: the spec's example — `Org{roles=["owner","member"];
"member" if "owner";}` rewrites to
`has_role(actor: Actor{}, "member", org: Org{}) if has_role(actor, "owner", org)`. -/
theorem claim_C2_witness :
    Implication.as_rule ⟨.Str "member", (.Str "owner", none)⟩ (.Variable "Org") blocksC2 =
      .ok ⟨"has_role",
        [⟨.Variable "actor", some (.InstancePat "Actor" .nil)⟩,
         ⟨.Str "member", none⟩,
         ⟨.Variable "org", some (.InstancePat "Org" .nil)⟩],
        .Expr .And (TermList.ofList
          [.Call "has_role"
            (TermList.ofList [.Variable "actor", .Str "owner", .Variable "org"])])⟩ :=
  claim_C2.1 blocksC2 (.Variable "Org") "Org" orgDeclsC2 (.Str "member") (.Str "owner")
    .Role .Role (.Variable "org") rfl (by decide) (by decide) (by decide) (by decide)

set_option maxRecDepth 8000

/-- C3: rewriting a relational implication `"head" if "implier" on "relation";`
produces a body that is a conjunction of exactly two calls in order —
`has_relation(related_var, relation, resource_var)` followed by
`<implier-category-in-related-block>(actor, implier, related_var)` — where the
implier's category is resolved in the related type's block; a missing related
block and an implier undeclared in the related block each produce a distinct
`ParseSugar` error. -/
theorem claim_C3 :
    (∀ (blocks : ResourceBlocks) (resource : Term) (resource_name : String)
        (decls rdecls : Declarations) (head implier relation rtype : Term)
        (rtype_name : String) (dh di : Declaration) (resource_var related_var : Term),
        resource = .Variable resource_name →
        rtype = .Variable rtype_name →
        assoc_lookup blocks.declarations resource = some decls →
        assoc_lookup decls head = some dh →
        assoc_lookup decls relation = some (.Relation rtype) →
        assoc_lookup blocks.declarations rtype = some rdecls →
        assoc_lookup rdecls implier = some di →
        resource_as_var resource = .ok resource_var →
        resource_as_var rtype = .ok related_var →
        Implication.as_rule ⟨head, (implier, some relation)⟩ resource blocks =
          .ok ⟨dh.as_rule_name,
            [⟨.Variable "actor", some (.InstancePat "Actor" .nil)⟩,
             ⟨head, none⟩,
             ⟨resource_var, some (.InstancePat resource_name .nil)⟩],
            .Expr .And (TermList.ofList
              [.Call "has_relation"
                (TermList.ofList [related_var, relation, resource_var]),
               .Call di.as_rule_name
                (TermList.ofList [.Variable "actor", implier, related_var])])⟩) ∧
    (∀ (blocks : ResourceBlocks) (resource : Term) (resource_name : String)
        (decls : Declarations) (head implier relation rtype : Term)
        (rtype_name : String) (dh : Declaration) (resource_var related_var : Term),
        resource = .Variable resource_name →
        rtype = .Variable rtype_name →
        assoc_lookup blocks.declarations resource = some decls →
        assoc_lookup decls head = some dh →
        assoc_lookup decls relation = some (.Relation rtype) →
        assoc_lookup blocks.declarations rtype = none →
        resource_as_var resource = .ok resource_var →
        resource_as_var rtype = .ok related_var →
        Implication.as_rule ⟨head, (implier, some relation)⟩ resource blocks =
          .error (.ParseSugar (resource.to_polar ++ ": Relation " ++ relation.to_polar
            ++ " in rule body `" ++ implier.to_polar ++ " on " ++ relation.to_polar
            ++ "` has type '" ++ rtype.to_polar
            ++ "', but no such resource block exists. Try declaring one: `resource "
            ++ rtype.to_polar ++ " \x7b\x7d`"))) ∧
    (∀ (blocks : ResourceBlocks) (resource : Term) (resource_name : String)
        (decls rdecls : Declarations) (head implier relation rtype : Term)
        (rtype_name : String) (dh : Declaration) (resource_var related_var : Term),
        resource = .Variable resource_name →
        rtype = .Variable rtype_name →
        assoc_lookup blocks.declarations resource = some decls →
        assoc_lookup decls head = some dh →
        assoc_lookup decls relation = some (.Relation rtype) →
        assoc_lookup blocks.declarations rtype = some rdecls →
        assoc_lookup rdecls implier = none →
        resource_as_var resource = .ok resource_var →
        resource_as_var rtype = .ok related_var →
        Implication.as_rule ⟨head, (implier, some relation)⟩ resource blocks =
          .error (.ParseSugar (resource.to_polar ++ ": Term " ++ implier.to_polar
            ++ " not declared in related resource block '" ++ rtype.to_polar
            ++ "'. Did you mean to declare it as a role, permission, or relation in the '"
            ++ rtype.to_polar ++ "' resource block?"))) ∧
    (Implication.as_rule implC3 (.Variable "Repo") blocksC3_no_org =
        .error errC3_no_block ∧
     Implication.as_rule implC3 (.Variable "Repo") blocksC3_empty_org =
        .error errC3_undeclared ∧
     errC3_no_block ≠ errC3_undeclared) := by
  refine ⟨?_, ?_, ?_, by decide, by decide, by decide⟩
  · intro blocks resource resource_name decls rdecls head implier relation rtype
      rtype_name dh di resource_var related_var h1 h2 h3 h4 h5 h6 h7 h8 h9
    subst h1
    simp only [Implication.as_rule, get_rule_name_for_declaration_in_resource_block,
      get_declaration_in_resource_block, h3, h4, implication_head_to_params,
      Term.as_symbol, h8, implication_body_to_rule_body,
      get_relation_type_in_resource_block, h5, Declaration.as_relation_type, h9,
      get_rule_name_for_declaration_in_related_resource_block, h6, h7,
      bind, Except.bind, pure, Except.pure]
  · intro blocks resource resource_name decls head implier relation rtype
      rtype_name dh resource_var related_var h1 h2 h3 h4 h5 h6 h8 h9
    subst h1
    simp only [Implication.as_rule, get_rule_name_for_declaration_in_resource_block,
      get_declaration_in_resource_block, h3, h4, implication_head_to_params,
      Term.as_symbol, h8, implication_body_to_rule_body,
      get_relation_type_in_resource_block, h5, Declaration.as_relation_type, h9,
      get_rule_name_for_declaration_in_related_resource_block, h6,
      bind, Except.bind, pure, Except.pure]
  · intro blocks resource resource_name decls rdecls head implier relation rtype
      rtype_name dh resource_var related_var h1 h2 h3 h4 h5 h6 h7 h8 h9
    subst h1
    simp only [Implication.as_rule, get_rule_name_for_declaration_in_resource_block,
      get_declaration_in_resource_block, h3, h4, implication_head_to_params,
      Term.as_symbol, h8, implication_body_to_rule_body,
      get_relation_type_in_resource_block, h5, Declaration.as_relation_type, h9,
      get_rule_name_for_declaration_in_related_resource_block, h6, h7,
      bind, Except.bind, pure, Except.pure]

/-- C3 witness: the spec's cross-block example — `"reader" if "member" on
"parent";` in `Repo` (with `relations = { parent: Org }` and `Org` declaring
role `"member"`) rewrites to `has_role(actor: Actor{}, "reader", repo: Repo{})
if has_relation(org, "parent", repo) and has_role(actor, "member", org)`. -/
theorem claim_C3_witness :
    Implication.as_rule implC3 (.Variable "Repo") blocksC3 =
      .ok ⟨"has_role",
        [⟨.Variable "actor", some (.InstancePat "Actor" .nil)⟩,
         ⟨.Str "reader", none⟩,
         ⟨.Variable "repo", some (.InstancePat "Repo" .nil)⟩],
        .Expr .And (TermList.ofList
          [.Call "has_relation"
            (TermList.ofList [.Variable "org", .Str "parent", .Variable "repo"]),
           .Call "has_role"
            (TermList.ofList [.Variable "actor", .Str "member", .Variable "org"])])⟩ :=
  claim_C3.1 blocksC3 (.Variable "Repo") "Repo" repoDeclsC3 orgDeclsC3 (.Str "reader")
    (.Str "member") (.Str "parent") (.Variable "Org") "Org" .Role .Role
    (.Variable "repo") (.Variable "org") rfl rfl (by decide) (by decide) (by decide)
    (by decide) (by decide) (by decide) (by decide)

/-- C5: `rewrite_implications` clears the accumulated resource-block state on
every outcome, and on any failure it leaves the knowledge base's rule set
unchanged — generated rules are merged only when the whole rewrite succeeds. -/
theorem claim_C5 :
    ∀ kb : KnowledgeBase,
      (rewrite_implications kb).1.resource_blocks = (⟨[], [], [], []⟩ : ResourceBlocks) ∧
      (∀ e, (rewrite_implications kb).2 = some e →
        (rewrite_implications kb).1.rules = kb.rules) := by
  intro kb
  unfold rewrite_implications
  cases hc : check_all_relation_types_have_been_registered kb with
  | cons e es => exact ⟨rfl, fun _ _ => rfl⟩
  | nil =>
      dsimp only
      rcases hr : rewrite_all_implications kb.resource_blocks with ⟨rules, errors⟩
      dsimp only
      cases errors with
      | cons e es => exact ⟨rfl, fun _ _ => rfl⟩
      | nil =>
          refine ⟨?_, ?_⟩
          · exact foldl_add_rule_resource_blocks rules _
          · intro e he
            cases he

/-- C5 witness: on `kbC5` (a block declaring `parent: Org` with `Org`
unregistered) the rewrite fails with the relation-type error, and the rule set
is untouched. -/
theorem claim_C5_witness :
    (rewrite_implications kbC5).2 = some errC5 ∧
    (rewrite_implications kbC5).1.rules = kbC5.rules := by
  refine ⟨by decide, ?_⟩
  exact (claim_C5 kbC5).2 errC5 (by decide)

/-- C6: `add_source` on a filename-carrying source fails with three distinct
diagnostics — identical filename+content already loaded; same filename with
different content; same content under a different filename — and otherwise
records the filename and content bookkeeping and returns a fresh source id
(the id counter itself is modelled from the spec, see `Counter`). -/
theorem claim_C6 :
    (∀ (kb : KnowledgeBase) (src filename : String),
        assoc_lookup kb.loaded_content src = some filename →
        (assoc_lookup kb.loaded_files filename).isSome = true →
        (add_source kb ⟨some filename, src⟩).2 =
          .error (.RuntimeFileLoading
            ("File " ++ filename ++ " has already been loaded."))) ∧
    (∀ (kb : KnowledgeBase) (src filename : String),
        assoc_lookup kb.loaded_content src ≠ some filename →
        (assoc_lookup kb.loaded_files filename).isSome = true →
        (add_source kb ⟨some filename, src⟩).2 =
          .error (.RuntimeFileLoading
            ("A file with the name " ++ filename
              ++ ", but different contents has already been loaded."))) ∧
    (∀ (kb : KnowledgeBase) (src filename other : String),
        assoc_lookup kb.loaded_content src = some other →
        assoc_lookup kb.loaded_files filename = none →
        (add_source kb ⟨some filename, src⟩).2 =
          .error (.RuntimeFileLoading
            ("A file with the same contents as " ++ filename ++ " named " ++ other
              ++ " has already been loaded."))) ∧
    (∀ (kb : KnowledgeBase) (src filename : String),
        assoc_lookup kb.loaded_content src = none →
        assoc_lookup kb.loaded_files filename = none →
        (add_source kb ⟨some filename, src⟩).2 = .ok (kb.id_counter.next_id % MAX_ID) ∧
        assoc_lookup (add_source kb ⟨some filename, src⟩).1.loaded_files filename =
          some (kb.id_counter.next_id % MAX_ID) ∧
        assoc_lookup (add_source kb ⟨some filename, src⟩).1.loaded_content src =
          some filename ∧
        assoc_lookup (add_source kb ⟨some filename, src⟩).1.sources
          (kb.id_counter.next_id % MAX_ID) = some ⟨some filename, src⟩) ∧
    ((add_source kbC6 ⟨some "a.polar", "x = 1;"⟩).2 = .error errC6_already ∧
     (add_source kbC6 ⟨some "a.polar", "y = 2;"⟩).2 = .error errC6_diff_content ∧
     (add_source kbC6 ⟨some "b.polar", "x = 1;"⟩).2 = .error errC6_diff_name ∧
     errC6_already ≠ errC6_diff_content ∧ errC6_already ≠ errC6_diff_name ∧
     errC6_diff_content ≠ errC6_diff_name) := by
  refine ⟨?_, ?_, ?_, ?_, by decide, by decide, by decide, by decide, by decide, by decide⟩
  · intro kb src filename h1 h2
    simp [add_source, KnowledgeBase.new_id, check_file, h1, h2]
  · intro kb src filename h1 h2
    cases hc : assoc_lookup kb.loaded_content src with
    | none => simp [add_source, KnowledgeBase.new_id, check_file, hc, h2]
    | some other =>
        have hne : other ≠ filename := fun e => h1 (by rw [hc, e])
        simp [add_source, KnowledgeBase.new_id, check_file, hc, h2, hne]
  · intro kb src filename other h1 h2
    simp [add_source, KnowledgeBase.new_id, check_file, h1, h2]
  · intro kb src filename h1 h2
    refine ⟨?_, ?_, ?_, ?_⟩ <;>
      simp [add_source, KnowledgeBase.new_id, Counter.next, check_file, h1, h2,
        assoc_insert_self]

/-- C6 witness: the general clauses applied at `kbC6` (which has loaded
`a.polar` with content `x = 1;`): each duplicate scenario produces its
diagnostic and a genuinely new filename+content pair succeeds with the next
id. -/
theorem claim_C6_witness :
    (add_source kbC6 ⟨some "a.polar", "x = 1;"⟩).2 =
      .error (.RuntimeFileLoading
        ("File " ++ "a.polar" ++ " has already been loaded.")) ∧
    (add_source kbC6 ⟨some "a.polar", "y = 2;"⟩).2 =
      .error (.RuntimeFileLoading
        ("A file with the name " ++ "a.polar"
          ++ ", but different contents has already been loaded.")) ∧
    (add_source kbC6 ⟨some "b.polar", "x = 1;"⟩).2 =
      .error (.RuntimeFileLoading
        ("A file with the same contents as " ++ "b.polar" ++ " named " ++ "a.polar"
          ++ " has already been loaded.")) ∧
    (add_source kbC6 ⟨some "b.polar", "y = 2;"⟩).2 =
      .ok (kbC6.id_counter.next_id % MAX_ID) := by
  refine ⟨?_, ?_, ?_, ?_⟩
  · exact claim_C6.1 kbC6 "x = 1;" "a.polar" (by decide) (by decide)
  · exact claim_C6.2.1 kbC6 "y = 2;" "a.polar" (by decide) (by decide)
  · exact claim_C6.2.2.1 kbC6 "x = 1;" "b.polar" "a.polar" (by decide) (by decide)
  · exact (claim_C6.2.2.2.1 kbC6 "y = 2;" "b.polar" (by decide) (by decide)).1
